import Mathlib

/-!
Verification of the EcoStyle sustainability-scoring backends.

The development shallowly embeds the deterministic core of the repository:

* `src/backend/app.py` — the 0–30 "Lifecycle Index" variant
  (`analyze_text_core`, `generate_tip`, the summary thresholds 24/18/12,
  constants `MAX_ECOSCORE`, `ENV_CLAIM_BONUS`, `WEB_VERIFICATION_CAP`);
* `src/app.py` — the 0–100 variant (`analyze_fabric` with its inline
  `material_database`, bonus `5 * material_count`, cap `100 * material_count`,
  summary thresholds 85/60/40);
* `src/packaging_api_tester.py` — `PackagingAnalyzer.find_material_by_name`
  and `analyze_packaging`.

Python floats are modelled as exact rationals; Python `round` (banker's
rounding, half to even) is modelled by `pyRound` below.  Python strings are
Lean `String`s; case-insensitive substring search is modelled on `List Char`.
The external pieces (Flask routing, the BERT classifier, OCR, the Serper web
search) are opaque inputs: the classifier verdict is a `Bool`, the web-search
result a hit count, exactly as they feed into the scoring path.
-/

namespace Eco

/-- Lowercased character list of a string, modelling Python `str.lower()`. -/
def lowerStr (s : String) : List Char := s.toList.map Char.toLower

/-- `headMatch p t` holds when `p` is an initial segment of `t`. -/
def headMatch : List Char → List Char → Bool
  | [], _ => true
  | _ :: _, [] => false
  | a :: as, b :: bs => a == b && headMatch as bs

/-- `occursIn p t` models Python `p in t` on strings: `p` occurs as a
contiguous substring of `t`. -/
def occursIn : List Char → List Char → Bool
  | p, [] => p.isEmpty
  | p, t@(_ :: ts) => headMatch p t || occursIn p ts

theorem headMatch_iff (p t : List Char) :
    headMatch p t = true ↔ ∃ r, t = p ++ r := by
  induction p generalizing t with
  | nil => simp [headMatch]
  | cons a as ih =>
    cases t with
    | nil => simp [headMatch]
    | cons b bs =>
      simp only [headMatch, Bool.and_eq_true, beq_iff_eq, ih, List.cons_append,
        List.cons.injEq]
      constructor
      · rintro ⟨rfl, r, rfl⟩; exact ⟨r, rfl, rfl⟩
      · rintro ⟨r, rfl, rfl⟩; exact ⟨rfl, r, rfl⟩

theorem occursIn_iff (p t : List Char) :
    occursIn p t = true ↔ ∃ l r, t = l ++ p ++ r := by
  induction t with
  | nil =>
    simp only [occursIn, List.isEmpty_iff]
    constructor
    · rintro rfl; exact ⟨[], [], rfl⟩
    · rintro ⟨l, r, h⟩
      rcases List.append_eq_nil.mp ((List.append_eq_nil).mp h.symm).1 with ⟨_, h2⟩
      exact h2
  | cons c ts ih =>
    simp only [occursIn, Bool.or_eq_true, headMatch_iff, ih]
    constructor
    · rintro (⟨r, hr⟩ | ⟨l, r, rfl⟩)
      · exact ⟨[], r, by simpa using hr⟩
      · exact ⟨c :: l, r, rfl⟩
    · rintro ⟨l, r, h⟩
      cases l with
      | nil => exact Or.inl ⟨r, by simpa using h⟩
      | cons x xs =>
        simp only [List.cons_append, List.cons.injEq] at h
        exact Or.inr ⟨xs, r, h.2⟩

/-- An empty pattern occurs in every text. A nonempty pattern never occurs
in the empty text. -/
theorem occursIn_nil (p : List Char) : occursIn p [] = true ↔ p = [] := by
  simp [occursIn, List.isEmpty_iff]

/-- A non-empty string, lowercased, never occurs in the empty input. -/
theorem occursIn_empty_input (a : String) (ha : a ≠ "") :
    occursIn (lowerStr a) (lowerStr "") = false := by
  have h1 : a.toList ≠ [] := by
    intro h
    apply ha
    cases a with
    | mk d =>
      simp only [String.toList] at h
      simp [h]
  rw [Bool.eq_false_iff]
  intro hocc
  have : lowerStr a = [] := by
    have := (occursIn_nil (lowerStr a)).mp (by simpa [lowerStr] using hocc)
    exact this
  exact h1 (List.map_eq_nil_iff.mp this)

/-! ## Python rounding and `min` -/

/-- Python `min(a, b)`. -/
def pymin {α : Type} [LinearOrder α] (a b : α) : α := if a ≤ b then a else b

theorem pymin_eq_min {α : Type} [LinearOrder α] (a b : α) : pymin a b = min a b := by
  rw [pymin, min_def]

/-- Python `round(q)` to an integer: round half to even (banker's rounding). -/
def pyRound (q : ℚ) : ℤ :=
  if q - ⌊q⌋ < 1 / 2 then ⌊q⌋
  else if 1 / 2 < q - ⌊q⌋ then ⌊q⌋ + 1
  else if 2 ∣ ⌊q⌋ then ⌊q⌋ else ⌊q⌋ + 1

/-- Python `round(q, 1)`: round to one decimal place, half to even. -/
def rnd1 (q : ℚ) : ℚ := (pyRound (10 * q) : ℚ) / 10

theorem pyRound_nonneg {q : ℚ} (h : 0 ≤ q) : 0 ≤ pyRound q := by
  have hf : (0 : ℤ) ≤ ⌊q⌋ := Int.floor_nonneg.mpr h
  unfold pyRound
  split_ifs <;> omega

theorem pyRound_le {q : ℚ} {B : ℤ} (h : q ≤ (B : ℚ)) : pyRound q ≤ B := by
  have hfB : ⌊q⌋ ≤ B := Int.floor_le_floor h |>.trans_eq (Int.floor_intCast B)
  have hfq : (⌊q⌋ : ℚ) ≤ q := Int.floor_le q
  unfold pyRound
  split_ifs with h1 h2 h3
  · exact hfB
  · -- the fractional part is positive, so `⌊q⌋ < q ≤ B`, hence `⌊q⌋ + 1 ≤ B`
    have : (⌊q⌋ : ℚ) < q := by linarith
    have : (⌊q⌋ : ℚ) < (B : ℚ) := lt_of_lt_of_le this h
    exact_mod_cast Int.add_one_le_iff.mpr (by exact_mod_cast this)
  · exact hfB
  · have : (⌊q⌋ : ℚ) < q := by linarith
    have : (⌊q⌋ : ℚ) < (B : ℚ) := lt_of_lt_of_le this h
    exact_mod_cast Int.add_one_le_iff.mpr (by exact_mod_cast this)

theorem rnd1_nonneg {q : ℚ} (h : 0 ≤ q) : 0 ≤ rnd1 q := by
  unfold rnd1
  have : (0 : ℤ) ≤ pyRound (10 * q) := pyRound_nonneg (by linarith)
  positivity

theorem rnd1_le_30 {q : ℚ} (h : q ≤ 30) : rnd1 q ≤ 30 := by
  unfold rnd1
  have h300 : pyRound (10 * q) ≤ (300 : ℤ) := pyRound_le (by push_cast; linarith)
  have : (pyRound (10 * q) : ℚ) ≤ 300 := by exact_mod_cast h300
  linarith

/-! ## Elementary list-sum bounds -/

theorem list_sum_nonneg {l : List ℚ} (h : ∀ x ∈ l, 0 ≤ x) : 0 ≤ l.sum := by
  induction l with
  | nil => simp
  | cons a t ih =>
    simp only [List.sum_cons]
    have ha := h a (List.mem_cons_self a t)
    have ht := ih fun x hx => h x (List.mem_cons_of_mem a hx)
    linarith

theorem list_sum_le {l : List ℚ} {c : ℚ} (h : ∀ x ∈ l, x ≤ c) :
    l.sum ≤ c * l.length := by
  induction l with
  | nil => simp
  | cons a t ih =>
    simp only [List.sum_cons, List.length_cons]
    have ha := h a (List.mem_cons_self a t)
    have ht := ih fun x hx => h x (List.mem_cons_of_mem a hx)
    push_cast
    linarith

theorem list_sum_nonneg_int {l : List ℤ} (h : ∀ x ∈ l, 0 ≤ x) : 0 ≤ l.sum := by
  induction l with
  | nil => simp
  | cons a t ih =>
    simp only [List.sum_cons]
    have ha := h a (List.mem_cons_self a t)
    have ht := ih fun x hx => h x (List.mem_cons_of_mem a hx)
    linarith

theorem list_sum_le_int {l : List ℤ} {c : ℤ} (h : ∀ x ∈ l, x ≤ c) :
    l.sum ≤ c * l.length := by
  induction l with
  | nil => simp
  | cons a t ih =>
    simp only [List.sum_cons, List.length_cons]
    have ha := h a (List.mem_cons_self a t)
    have ht := ih fun x hx => h x (List.mem_cons_of_mem a hx)
    push_cast
    linarith

/-! ## The 0–30 variant (`src/backend/app.py`) -/

/-- Constant `MAX_ECOSCORE = 30` of `src/backend/app.py`. -/
def MAX_ECOSCORE : ℚ := 30

/-- Constant `ENV_CLAIM_BONUS = 2` of `src/backend/app.py`. -/
def ENV_CLAIM_BONUS : ℚ := 2

/-- Constant `WEB_VERIFICATION_CAP = 2` of `src/backend/app.py`. -/
def WEB_VERIFICATION_CAP : ℕ := 2

/-- One entry of the fiber table `material_database` loaded from
`data/fibers.json`: the fields `analyze_text_core` reads
(`displayName`, `ecoScore`, `includes`, `certifications`, `biodegradable`,
`recyclable`).  The JSON file itself is external data, so the table stays a
parameter throughout. -/
structure Fiber where
  displayName : String
  ecoScore : ℚ
  includes : List String
  certifications : List String
  biodegradable : Bool
  recyclable : Bool
deriving DecidableEq

/-- One element of the `matched` list built by `analyze_text_core`. -/
structure M30 where
  name : String
  ecoScore : ℚ
  certifications : List String
  biodegradable : Bool
  recyclable : Bool
deriving DecidableEq

/-- The dict appended for a matching fiber in `analyze_text_core`. -/
def toM30 (f : Fiber) : M30 :=
  ⟨f.displayName, f.ecoScore, f.certifications, f.biodegradable, f.recyclable⟩

/-- The match test of `analyze_text_core` for one table entry:
`aliases = fiber.get("includes", []) + [key]`, matched when
`any(a.lower() in lower for a in aliases)`. -/
def entryMatches30 (kv : String × Fiber) (input : String) : Bool :=
  (kv.2.includes ++ [kv.1]).any fun a => occursIn (lowerStr a) (lowerStr input)

/-- The matching loop of `analyze_text_core` (lines 175–189): iterate the
table in order, appending `toM30 fiber` whenever the entry matches. -/
def matched30 (db : List (String × Fiber)) (input : String) : List M30 :=
  db.foldl (fun acc kv => if entryMatches30 kv input then acc ++ [toM30 kv.2] else acc) []

/-- The scoring block of `analyze_text_core` (lines 198–206), as a function
of the matched base scores, the EnvironmentalBERT verdict, and the number of
web-verification hits:

    if not matched: score = 15
    else:
        score = round(total_score / len(matched), 1)
        if is_claim: score += ENV_CLAIM_BONUS
        score += min(len(web), WEB_VERIFICATION_CAP)
        score = min(score, MAX_ECOSCORE)

`total_score` is accumulated alongside `matched`, so it equals the sum of the
matched scores. -/
def score30 (scores : List ℚ) (isClaim : Bool) (webLen : ℕ) : ℚ :=
  if scores.isEmpty then 15
  else
    let base := rnd1 (scores.sum / scores.length)
    let s1 := if isClaim then base + ENV_CLAIM_BONUS else base
    let s2 := s1 + (pymin webLen WEB_VERIFICATION_CAP : ℕ)
    pymin s2 MAX_ECOSCORE

/-- The summary block of `analyze_text_core` (lines 209–216). -/
def summary30 (score : ℚ) : String :=
  if 24 ≤ score then "Excellent Choice"
  else if 18 ≤ score then "Good Choice"
  else if 12 ≤ score then "Could Be Better"
  else "Consider Alternatives"

/-- `generate_tip` of `src/backend/app.py` (lines 133–141). -/
def generate_tip (score : ℚ) : String :=
  if 24 ≤ score then "Excellent choice. Focus on durability and mindful care."
  else if 18 ≤ score then "Fairly sustainable. Washing less and air-drying helps."
  else if 12 ≤ score then "Moderate impact. Consider natural or recycled fibers."
  else "High impact. Prefer hemp, linen, or recycled materials."

/-- The JSON body `analyze_text_core` returns (the deterministic fields;
`environmentalBert.raw` is the classifier's opaque output, `webVerification`
the opaque search hits). -/
structure Response30 where
  overallScore : ℚ
  scoreScale : String
  summary : String
  materials : List M30
  recommendation : String
  environmentalClaim : Bool
  fallbackUsed : Bool
deriving DecidableEq

/-- `analyze_text_core` end to end on the deterministic path: matching,
scoring, summary and tip, given the table, the input text, the classifier
verdict `isClaim` and the web hit count `webLen`. -/
def analyzeCore30 (db : List (String × Fiber)) (input : String)
    (isClaim : Bool) (webLen : ℕ) (fallbackUsed : Bool) : Response30 :=
  let m := matched30 db input
  let s := score30 (m.map M30.ecoScore) isClaim webLen
  ⟨s, "/30", summary30 s, m, generate_tip s, isClaim, fallbackUsed⟩

/-! ## The 0–100 variant (`src/app.py`) -/

/-- One value of the inline `material_database` of `src/app.py`. -/
structure Entry100 where
  score : ℤ
  pros : List String
  cons : List String
deriving DecidableEq

/-- One element of `materials_found`: `{"name": material, **details}`. -/
structure M100 where
  name : String
  score : ℤ
  pros : List String
  cons : List String
deriving DecidableEq

/-- The inline `material_database` of `src/app.py` (lines 49–59), in
insertion order. -/
def material_database : List (String × Entry100) :=
  [("organic cotton", ⟨90, ["Uses no synthetic pesticides", "Reduces water pollution"],
      ["Still requires significant water to grow"]⟩),
   ("cotton", ⟨50, ["Natural, biodegradable fiber"],
      ["Very high water consumption", "Heavy pesticide use in conventional farming"]⟩),
   ("recycled polyester", ⟨75, ["Reduces plastic waste from landfills",
      "Lower carbon footprint than virgin polyester"],
      ["Can release microplastics when washed"]⟩),
   ("polyester", ⟨20, ["Durable and water-resistant"],
      ["Made from fossil fuels (non-renewable)", "Not biodegradable",
       "Energy-intensive production"]⟩),
   ("linen", ⟨95, ["Made from flax plant, very durable",
      "Requires minimal water and pesticides", "Fully biodegradable"],
      ["Can wrinkle easily"]⟩),
   ("hemp", ⟨98, ["Extremely durable natural fiber",
      "Requires no pesticides and little water", "Improves soil health"],
      ["Limited availability currently"]⟩),
   ("tencel", ⟨85, ["Made from sustainable wood pulp",
      "Produced in a closed-loop system recycling water"],
      ["Chemical processing is required"]⟩),
   ("spandex", ⟨15, ["Provides stretch and comfort"],
      ["Synthetic fiber derived from petroleum", "Not biodegradable"]⟩),
   ("viscose", ⟨40, ["Made from wood pulp"],
      ["Can contribute to deforestation if not sourced responsibly",
       "Chemically intensive process"]⟩)]

/-- The match test of `analyze_fabric` for one table entry:
`if material in lower_input` — the key itself, not lowered, searched in the
lowercased input. -/
def entryMatches100 (kv : String × Entry100) (input : String) : Bool :=
  occursIn kv.1.toList (lowerStr input)

/-- The matching loop of `analyze_fabric` (lines 85–94). -/
def matched100 (db : List (String × Entry100)) (input : String) : List M100 :=
  db.foldl
    (fun acc kv =>
      if entryMatches100 kv input then acc ++ [⟨kv.1, kv.2.score, kv.2.pros, kv.2.cons⟩]
      else acc) []

/-- The scoring block of `analyze_fabric` (lines 96–101) as a function of the
matched scores and the classifier verdict:

    if is_environmental_claim and material_count > 0:
        total_score += 5 * material_count
        total_score = min(total_score, 100 * material_count)
    overall_score = round(total_score / material_count) if material_count > 0 else 45
-/
def score100 (scores : List ℤ) (isClaim : Bool) : ℤ :=
  let total := scores.sum
  let count : ℤ := scores.length
  let total2 := if isClaim ∧ ¬scores.isEmpty then pymin (total + 5 * count) (100 * count)
    else total
  if scores.isEmpty then 45 else pyRound ((total2 : ℚ) / (count : ℚ))

/-- The summary block of `analyze_fabric` (lines 117–124). -/
def summary100 (score : ℤ) : String :=
  if 85 ≤ score then "Excellent Choice"
  else if 60 ≤ score then "Good Choice"
  else if 40 ≤ score then "Could Be Better"
  else "Consider Alternatives"

/-- The deterministic fields of the `analyze_fabric` response (the
`recommendation` there is the opaque output of the text-generation model). -/
structure Response100 where
  overallScore : ℤ
  summary : String
  materials : List M100
deriving DecidableEq

/-- `analyze_fabric`'s deterministic pipeline: matching, scoring, summary. -/
def analyzeFabric (input : String) (isClaim : Bool) : Response100 :=
  let m := matched100 material_database input
  let s := score100 (m.map M100.score) isClaim
  ⟨s, summary100 s, m⟩

/-! ## The packaging analyzer (`src/packaging_api_tester.py`)

The JSON databases under `mock_data/` are external data loaded at startup,
so they stay parameters.  JSON objects become association lists (first
binding wins, as for `dict.get`). -/

/-- One entry of `materials_db.json`, with the fields `analyze_packaging`
reads (`name`, `mat_id`, `category`). -/
structure PMaterial where
  name : String
  mat_id : String
  category : String
deriving DecidableEq

/-- A localized recyclability record (`outcome`, `notes`). -/
structure RecyclingInfo where
  outcome : String
  notes : String
deriving DecidableEq

/-- `dict.get(key, default)` on a JSON object modelled as an association
list. -/
def dictGet (assoc : List (String × α)) (k : String) : Option α :=
  (assoc.find? fun p => p.1 == k).map Prod.snd

/-- `PackagingAnalyzer.find_material_by_name` (lines 37–42): scan the
material list in order, returning the first whose `name` equals the query
case-insensitively, else `None`. -/
def find_material_by_name : List PMaterial → String → Option PMaterial
  | [], _ => none
  | m :: ms, q =>
    if lowerStr m.name = lowerStr q then some m else find_material_by_name ms q

/-- The report assembled by `analyze_packaging` (keys of the `result`
dict). -/
structure PReport where
  material : String
  city : String
  localized : RecyclingInfo
  swaps : List String
  esgPoints : List String
  marketing : String
  investor : String
  regulations : List String
deriving DecidableEq

/-- Result of `analyze_packaging`: either the `{"error": ...}` dict or the
full report. -/
inductive PAnalysis where
  | failure (msg : String)
  | report (r : PReport)
deriving DecidableEq

/-- Python `str.capitalize()`: first character uppercased, the rest
lowercased. -/
def capStr (s : String) : String :=
  match s.toList with
  | [] => ""
  | c :: cs => String.mk (c.toUpper :: cs.map Char.toLower)

/-- ASCII single quote, for the f-string error message. -/
def sq : String := String.singleton (Char.ofNat 39)

/-- The default recyclability record of `analyze_packaging` (lines 58–61). -/
def defaultRecycling : RecyclingInfo :=
  ⟨"Data Unavailable", "No specific recycling data for this material in this city."⟩

/-- `PackagingAnalyzer.analyze_packaging` (lines 44–89) over the five loaded
databases: materials list, infrastructure (city → material id → record),
alternatives (material id → swaps), ESG points (category → points) and the
regulations blob. -/
def analyze_packaging (materials : List PMaterial)
    (infra : List (String × List (String × RecyclingInfo)))
    (alternatives : List (String × List String))
    (esg_sdg : List (String × List String))
    (regulations : List String)
    (material_name city_name : String) : PAnalysis :=
  match find_material_by_name materials material_name with
  | none =>
    .failure ("Material " ++ sq ++ material_name ++ sq ++ " not found in database.")
  | some material =>
    let city_infra := (dictGet infra (lowerStr city_name).asString).getD []
    let recyclability_info := (dictGet city_infra material.mat_id).getD defaultRecycling
    let sustainable_swaps := (dictGet alternatives material.mat_id).getD []
    let esg_points := (dictGet esg_sdg material.category).getD []
    .report ⟨material.name, capStr city_name, recyclability_info, sustainable_swaps,
      esg_points,
      "Highlighting a switch from " ++ material.name ++
        " to a sustainable alternative can improve brand perception among eco-conscious consumers.",
      "Demonstrating proactive management of packaging waste strengthens ESG credentials, appealing to modern investors.",
      regulations⟩

/-! ## Characterizations of the matching loops -/

theorem foldl_append_filter_map {α β : Type} (p : α → Bool) (f : α → β)
    (db : List α) (acc : List β) :
    db.foldl (fun a x => if p x then a ++ [f x] else a) acc
      = acc ++ (db.filter p).map f := by
  induction db generalizing acc with
  | nil => simp
  | cons kv t ih =>
    by_cases h : p kv
    · simp [List.foldl_cons, h, ih, List.filter_cons]
    · simp [List.foldl_cons, h, ih, List.filter_cons]

theorem matched30_eq_filter (db : List (String × Fiber)) (input : String) :
    matched30 db input
      = ((db.filter fun kv => entryMatches30 kv input).map fun kv => toM30 kv.2) := by
  unfold matched30
  simpa using foldl_append_filter_map (fun kv => entryMatches30 kv input)
    (fun kv => toM30 kv.2) db []

theorem matched100_eq_filter (db : List (String × Entry100)) (input : String) :
    matched100 db input
      = ((db.filter fun kv => entryMatches100 kv input).map
          fun kv => (⟨kv.1, kv.2.score, kv.2.pros, kv.2.cons⟩ : M100)) := by
  unfold matched100
  simpa using foldl_append_filter_map (fun kv => entryMatches100 kv input)
    (fun kv => (⟨kv.1, kv.2.score, kv.2.pros, kv.2.cons⟩ : M100)) db []

theorem entryMatches30_iff (kv : String × Fiber) (input : String) :
    entryMatches30 kv input = true ↔
      ∃ a, (a ∈ kv.2.includes ∨ a = kv.1) ∧
        ∃ l r, lowerStr input = l ++ lowerStr a ++ r := by
  unfold entryMatches30
  simp only [List.any_eq_true, List.mem_append, List.mem_singleton]
  constructor
  · rintro ⟨a, ha, hocc⟩
    exact ⟨a, ha, (occursIn_iff _ _).mp hocc⟩
  · rintro ⟨a, ha, hocc⟩
    exact ⟨a, ha, (occursIn_iff _ _).mpr hocc⟩

/-! ## Lemmas about `find_material_by_name` -/

theorem find_material_eq_none_iff (mats : List PMaterial) (q : String) :
    find_material_by_name mats q = none ↔
      ∀ m ∈ mats, lowerStr m.name ≠ lowerStr q := by
  induction mats with
  | nil => simp [find_material_by_name]
  | cons m ms ih =>
    unfold find_material_by_name
    by_cases h : lowerStr m.name = lowerStr q
    · simp [h]
    · simp [h, ih]

theorem find_material_eq_some (mats : List PMaterial) (q : String)
    (m : PMaterial) (h : find_material_by_name mats q = some m) :
    lowerStr m.name = lowerStr q ∧
      ∃ pre post, mats = pre ++ m :: post ∧
        ∀ m' ∈ pre, lowerStr m'.name ≠ lowerStr q := by
  induction mats with
  | nil => simp [find_material_by_name] at h
  | cons x ms ih =>
    unfold find_material_by_name at h
    by_cases hx : lowerStr x.name = lowerStr q
    · rw [if_pos hx] at h
      obtain rfl : x = m := Option.some.inj h
      exact ⟨hx, [], ms, rfl, by simp⟩
    · rw [if_neg hx] at h
      obtain ⟨hm, pre, post, rfl, hpre⟩ := ih h
      refine ⟨hm, x :: pre, post, rfl, ?_⟩
      intro m' hm'
      rcases List.mem_cons.mp hm' with rfl | hmem
      · exact hx
      · exact hpre m' hmem

/-! ## Generic facts about the aggregators -/

theorem score30_nonneg_of_nonneg (scores : List ℚ) (c : Bool) (w : ℕ)
    (hpos : ∀ s ∈ scores, 0 ≤ s) : 0 ≤ score30 scores c w := by
  unfold score30
  by_cases hE : scores.isEmpty
  · simp [hE]
  · simp only [hE, Bool.false_eq_true, if_false]
    rw [pymin_eq_min]
    have hsum : 0 ≤ scores.sum := list_sum_nonneg hpos
    have hmean : 0 ≤ scores.sum / (scores.length : ℚ) :=
      div_nonneg hsum (by positivity)
    have hbase : 0 ≤ rnd1 (scores.sum / (scores.length : ℚ)) := rnd1_nonneg hmean
    have hs1 : 0 ≤ if c = true then rnd1 (scores.sum / (scores.length : ℚ)) + ENV_CLAIM_BONUS
        else rnd1 (scores.sum / (scores.length : ℚ)) := by
      split_ifs <;> [skip; exact hbase]
      have : (0 : ℚ) ≤ ENV_CLAIM_BONUS := by norm_num [ENV_CLAIM_BONUS]
      linarith
    refine le_min ?_ (by norm_num [MAX_ECOSCORE])
    have : (0 : ℚ) ≤ ((pymin w WEB_VERIFICATION_CAP : ℕ) : ℚ) := by positivity
    linarith

theorem score30_le_max (scores : List ℚ) (c : Bool) (w : ℕ) :
    score30 scores c w ≤ MAX_ECOSCORE := by
  unfold score30
  by_cases hE : scores.isEmpty
  · simp only [hE, if_true]; norm_num [MAX_ECOSCORE]
  · simp only [hE, Bool.false_eq_true, if_false]
    rw [pymin_eq_min]
    exact min_le_right _ _

theorem score100_bounds (scores : List ℤ) (c : Bool) (hne : scores ≠ [])
    (hbd : ∀ s ∈ scores, 0 ≤ s ∧ s ≤ 100) :
    0 ≤ score100 scores c ∧ score100 scores c ≤ 100 := by
  have hE : scores.isEmpty = false := by simpa [List.isEmpty_iff] using hne
  have hlen : 0 < scores.length := List.length_pos.mpr hne
  have h0 : 0 ≤ scores.sum := list_sum_nonneg_int fun x hx => (hbd x hx).1
  have h100 : scores.sum ≤ 100 * scores.length :=
    list_sum_le_int fun x hx => (hbd x hx).2
  have hlenQ : (0 : ℚ) < (scores.length : ℚ) := by exact_mod_cast hlen
  have key : ∀ t : ℤ, 0 ≤ t → t ≤ 100 * (scores.length : ℤ) →
      0 ≤ pyRound ((t : ℚ) / (scores.length : ℚ)) ∧
        pyRound ((t : ℚ) / (scores.length : ℚ)) ≤ 100 := by
    intro t ht0 ht100
    constructor
    · exact pyRound_nonneg (div_nonneg (by exact_mod_cast ht0) (le_of_lt hlenQ))
    · refine pyRound_le (B := 100) ?_
      rw [div_le_iff₀ hlenQ]
      exact_mod_cast ht100
  unfold score100
  simp only [hE, Bool.false_eq_true, if_false, not_false_iff, and_true]
  cases c with
  | false =>
    simp only [Bool.false_eq_true, false_and, if_false]
    exact key scores.sum h0 h100
  | true =>
    simp only [if_pos (by simp [hE] : true = true ∧ ¬scores.isEmpty = true)]
    rw [pymin_eq_min]
    refine key _ (le_min (by positivity) (by positivity)) (min_le_right _ _)

/-! ## The claims -/

/-- C1: for every non-empty matched-entry sequence and every combination of
the environmental-claim and web-verification signals, the aggregated
`overallScore` lies in `[0, MAX_SCORE]`: `[0, 30]` for the 0–30 variant
(`MAX_ECOSCORE`) given non-negative base scores, and `[0, 100]` for the
0–100 variant given base scores in `[0, 100]` (as all entries of its table
are). -/
theorem C1_overall_score_bounded :
    (∀ (scores : List ℚ) (c : Bool) (w : ℕ), scores ≠ [] →
        (∀ s ∈ scores, 0 ≤ s) →
        0 ≤ score30 scores c w ∧ score30 scores c w ≤ MAX_ECOSCORE)
    ∧ (∀ (scores : List ℤ) (c : Bool), scores ≠ [] →
        (∀ s ∈ scores, 0 ≤ s ∧ s ≤ 100) →
        0 ≤ score100 scores c ∧ score100 scores c ≤ 100) := by
  refine ⟨fun scores c w _ hpos => ?_, fun scores c hne hbd => score100_bounds scores c hne hbd⟩
  exact ⟨score30_nonneg_of_nonneg scores c w hpos, score30_le_max scores c w⟩

/-- Witness for C1 at concrete inputs: one matched entry with score 23 and
both signals firing on the 0–30 variant, three matched entries with scores
90, 50, 20 and the claim signal firing on the 0–100 variant. -/
theorem C1_overall_score_bounded_witness :
    (0 ≤ score30 [23] true 5 ∧ score30 [23] true 5 ≤ MAX_ECOSCORE)
    ∧ (0 ≤ score100 [90, 50, 20] true ∧ score100 [90, 50, 20] true ≤ 100) :=
  ⟨C1_overall_score_bounded.1 [23] true 5 (by simp) (by decide),
   C1_overall_score_bounded.2 [90, 50, 20] true (by simp) (by decide)⟩

/-- C2, counterexample: on the 0–100 variant the no-signal score is the mean
rounded to the nearest *integer*, not to one decimal place.  The input
"organic cotton and polyester" matches the entries with base scores 90, 50,
20; the mean is 160/3, the reported score is 53, but the mean rounded to one
decimal place is 53.3. -/
theorem C2_counterexample :
    (matched100 material_database "organic cotton and polyester").map M100.score
        = [90, 50, 20]
    ∧ score100 [90, 50, 20] false = 53
    ∧ rnd1 (((90 : ℚ) + 50 + 20) / 3) = 533 / 10
    ∧ ((score100 [90, 50, 20] false : ℚ) ≠ rnd1 (((90 : ℚ) + 50 + 20) / 3)) := by
  refine ⟨by decide, ?_, ?_, ?_⟩
  · norm_num [score100, pyRound, pymin]
  · norm_num [rnd1, pyRound]
  · norm_num [score100, rnd1, pyRound, pymin]

/-- C2, amended: with no active signals the aggregator returns the arithmetic
mean of the matched base scores — rounded to one decimal place on the 0–30
variant (for scores within its 0–30 scale, so that the final clamp is
inactive), and rounded to the nearest integer (half to even) on the 0–100
variant. -/
theorem C2_mean_when_no_signals :
    (∀ scores : List ℚ, scores ≠ [] → (∀ s ∈ scores, s ≤ 30) →
        score30 scores false 0 = rnd1 (scores.sum / (scores.length : ℚ)))
    ∧ (∀ scores : List ℤ, scores ≠ [] →
        score100 scores false = pyRound ((scores.sum : ℚ) / ((scores.length : ℤ) : ℚ))) := by
  constructor
  · intro scores hne hle
    have hE : scores.isEmpty = false := by simpa [List.isEmpty_iff] using hne
    have hlen : 0 < scores.length := List.length_pos.mpr hne
    have hlenQ : (0 : ℚ) < (scores.length : ℚ) := by exact_mod_cast hlen
    have hsum : scores.sum ≤ 30 * (scores.length : ℚ) := by
      have := list_sum_le hle; linarith
    have hmean : scores.sum / (scores.length : ℚ) ≤ 30 := by
      rw [div_le_iff₀ hlenQ]; linarith
    unfold score30
    simp only [hE, Bool.false_eq_true, if_false]
    rw [pymin_eq_min]
    have : pymin 0 WEB_VERIFICATION_CAP = 0 := by decide
    rw [this]
    simp only [Nat.cast_zero, add_zero]
    exact min_eq_left (by simpa [MAX_ECOSCORE] using rnd1_le_30 hmean)
  · intro scores hne
    have hE : scores.isEmpty = false := by simpa [List.isEmpty_iff] using hne
    unfold score100
    simp [hE]

/-- Witness for the amended C2 at concrete inputs: `[23]` on the 0–30
variant and `[90, 50, 20]` on the 0–100 variant. -/
theorem C2_mean_when_no_signals_witness :
    score30 [23] false 0 = rnd1 ([(23 : ℚ)].sum / ([(23 : ℚ)].length : ℚ))
    ∧ score100 [90, 50, 20] false
        = pyRound (([(90 : ℤ), 50, 20].sum : ℚ) / (([(90 : ℤ), 50, 20].length : ℤ) : ℚ)) :=
  ⟨C2_mean_when_no_signals.1 [23] (by simp) (by decide),
   C2_mean_when_no_signals.2 [90, 50, 20] (by simp)⟩

/-- C3, counterexample: with no matched entries the 0–30 variant returns the
neutral default 15, but since `15 ≥ 12` the summary is "Could Be Better" —
the second-lowest band — not the lowest band "Consider Alternatives"
(likewise `45 ≥ 40` on the 0–100 variant). -/
theorem C3_counterexample :
    score30 [] false 0 = 15
    ∧ summary30 (score30 [] false 0) = "Could Be Better"
    ∧ summary30 (score30 [] false 0) ≠ "Consider Alternatives" := by
  refine ⟨rfl, ?_, ?_⟩ <;> decide

/-- C3, amended: whenever the matched-entry sequence is empty, the aggregator
returns the fixed neutral default score — 15 on the 0–30 variant, 45 on the
0–100 variant — with no signals applied and without raising an error (both
embeddings are total functions), and the response falls in the
*second-lowest* band, "Could Be Better" (15 ≥ 12 and 45 ≥ 40). -/
theorem C3_empty_matches_neutral_default :
    ∀ (c : Bool) (w : ℕ) (c' : Bool),
      score30 [] c w = 15
      ∧ summary30 (score30 [] c w) = "Could Be Better"
      ∧ generate_tip (score30 [] c w) = "Moderate impact. Consider natural or recycled fibers."
      ∧ score100 [] c' = 45
      ∧ summary100 (score100 [] c') = "Could Be Better" := by
  intro c w c'
  exact ⟨rfl, rfl, rfl, rfl, rfl⟩

/-- C4: the entity matcher returns exactly the entries whose key or one of
whose aliases occurs as a case-insensitive substring of the input, in table
iteration order with each entry contributing at most once (the `filter`/`map`
characterization), membership is exactly case-insensitive substring
occurrence, empty input yields the empty sequence (for tables whose keys and
aliases are non-empty strings), and the same holds for the 0–100 matcher on
tables whose keys are already lowercase (as all of `material_database`'s
are). -/
theorem C4_matcher_exact :
    (∀ (db : List (String × Fiber)) (input : String),
        matched30 db input
          = ((db.filter fun kv => entryMatches30 kv input).map fun kv => toM30 kv.2))
    ∧ (∀ (db : List (String × Fiber)) (input : String) (m : M30),
        m ∈ matched30 db input ↔
          ∃ kv ∈ db, m = toM30 kv.2 ∧
            ∃ a, (a ∈ kv.2.includes ∨ a = kv.1) ∧
              ∃ l r, lowerStr input = l ++ lowerStr a ++ r)
    ∧ (∀ db : List (String × Fiber),
        (∀ kv ∈ db, kv.1 ≠ "" ∧ ∀ a ∈ kv.2.includes, a ≠ "") →
        matched30 db "" = [])
    ∧ (∀ (db : List (String × Entry100)) (input : String) (m : M100),
        (∀ kv ∈ db, lowerStr kv.1 = kv.1.toList) →
        (m ∈ matched100 db input ↔
          ∃ kv ∈ db, m = ⟨kv.1, kv.2.score, kv.2.pros, kv.2.cons⟩ ∧
            ∃ l r, lowerStr input = l ++ lowerStr kv.1 ++ r)) := by
  refine ⟨matched30_eq_filter, ?_, ?_, ?_⟩
  · intro db input m
    rw [matched30_eq_filter, List.mem_map]
    constructor
    · rintro ⟨kv, hkv, rfl⟩
      rcases List.mem_filter.mp hkv with ⟨hmem, hmatch⟩
      exact ⟨kv, hmem, rfl, (entryMatches30_iff kv input).mp hmatch⟩
    · rintro ⟨kv, hmem, rfl, hocc⟩
      exact ⟨kv, List.mem_filter.mpr ⟨hmem, (entryMatches30_iff kv input).mpr hocc⟩, rfl⟩
  · intro db hne
    rw [matched30_eq_filter]
    have hnil : db.filter (fun kv => entryMatches30 kv "") = [] := by
      rw [List.filter_eq_nil_iff]
      intro kv hkv
      have : entryMatches30 kv "" = false := by
        unfold entryMatches30
        rw [List.any_eq_false]
        intro a ha
        rcases List.mem_append.mp ha with ha' | ha'
        · simp [occursIn_empty_input a ((hne kv hkv).2 a ha')]
        · rw [List.mem_singleton] at ha'
          subst ha'
          simp [occursIn_empty_input _ (hne kv hkv).1]
      simp [this]
    rw [hnil, List.map_nil]
  · intro db input m hlow
    rw [matched100_eq_filter, List.mem_map]
    constructor
    · rintro ⟨kv, hkv, rfl⟩
      rcases List.mem_filter.mp hkv with ⟨hmem, hmatch⟩
      refine ⟨kv, hmem, rfl, ?_⟩
      simp only [entryMatches100] at hmatch
      rw [← hlow kv hmem] at hmatch
      exact (occursIn_iff _ _).mp hmatch
    · rintro ⟨kv, hmem, rfl, hocc⟩
      refine ⟨kv, List.mem_filter.mpr ⟨hmem, ?_⟩, rfl⟩
      simp only [entryMatches100]
      rw [← hlow kv hmem]
      exact (occursIn_iff _ _).mpr hocc

/-- Witness for C4 at concrete inputs: a one-entry table with non-empty key
and alias yields no match on empty input, and on the real 0–100 table the
input "Organic Cotton shirt" matches the `organic cotton` entry
case-insensitively. -/
theorem C4_matcher_exact_witness :
    matched30 [("cotton", ⟨"Cotton", 12, ["cotton fibre"], [], true, true⟩)] "" = []
    ∧ (⟨"organic cotton", 90, ["Uses no synthetic pesticides", "Reduces water pollution"],
        ["Still requires significant water to grow"]⟩ : M100)
        ∈ matched100 material_database "Organic Cotton shirt" :=
  ⟨C4_matcher_exact.2.2.1 [("cotton", ⟨"Cotton", 12, ["cotton fibre"], [], true, true⟩)]
      (by decide),
   (C4_matcher_exact.2.2.2 material_database "Organic Cotton shirt" _ (by decide)).mpr
      ⟨("organic cotton", ⟨90, ["Uses no synthetic pesticides", "Reduces water pollution"],
          ["Still requires significant water to grow"]⟩),
        by decide, rfl, [], " shirt".toList, by decide⟩⟩

/-- C5: the score-aggregation path is deterministic — it is a pure function
of the matched entries and the active signals, so two invocations with the
same table, input, classifier verdict and web hit count yield identical
responses (score, summary, matched list, recommendation), on both
variants. -/
theorem C5_deterministic :
    ∀ (db : List (String × Fiber)) (input : String) (c : Bool) (w : ℕ) (fb : Bool)
      (input' : String) (c' : Bool),
      analyzeCore30 db input c w fb = analyzeCore30 db input c w fb
      ∧ analyzeFabric input' c' = analyzeFabric input' c' := by
  intro db input c w fb input' c'
  exact ⟨rfl, rfl⟩

/-- Rank of the four summary labels, for stating monotonicity:
ConsiderAlternatives < CouldBeBetter < Good < Excellent. -/
def labelRank : String → ℕ
  | "Excellent Choice" => 3
  | "Good Choice" => 2
  | "Could Be Better" => 1
  | _ => 0

theorem rank_summary30 (x : ℚ) :
    labelRank (summary30 x)
      = if 24 ≤ x then 3 else if 18 ≤ x then 2 else if 12 ≤ x then 1 else 0 := by
  by_cases h1 : 24 ≤ x
  · simp [summary30, labelRank, h1]
  · by_cases h2 : 18 ≤ x
    · simp [summary30, labelRank, h1, h2]
    · by_cases h3 : 12 ≤ x
      · simp [summary30, labelRank, h1, h2, h3]
      · simp [summary30, labelRank, h1, h2, h3]

theorem rank_summary100 (x : ℤ) :
    labelRank (summary100 x)
      = if 85 ≤ x then 3 else if 60 ≤ x then 2 else if 40 ≤ x then 1 else 0 := by
  by_cases h1 : 85 ≤ x
  · simp [summary100, labelRank, h1]
  · by_cases h2 : 60 ≤ x
    · simp [summary100, labelRank, h1, h2]
    · by_cases h3 : 40 ≤ x
      · simp [summary100, labelRank, h1, h2, h3]
      · simp [summary100, labelRank, h1, h2, h3]

/-- C6: on both variants the label is a monotone non-decreasing function of
the score in the order ConsiderAlternatives < CouldBeBetter < Good <
Excellent, and every score maps to one of exactly these four labels
(thresholds evaluated highest-first). -/
theorem C6_label_monotone :
    (∀ x y : ℚ, x ≤ y → labelRank (summary30 x) ≤ labelRank (summary30 y))
    ∧ (∀ x y : ℤ, x ≤ y → labelRank (summary100 x) ≤ labelRank (summary100 y))
    ∧ (∀ x : ℚ, summary30 x = "Excellent Choice" ∨ summary30 x = "Good Choice"
        ∨ summary30 x = "Could Be Better" ∨ summary30 x = "Consider Alternatives")
    ∧ (∀ x : ℤ, summary100 x = "Excellent Choice" ∨ summary100 x = "Good Choice"
        ∨ summary100 x = "Could Be Better" ∨ summary100 x = "Consider Alternatives") := by
  refine ⟨?_, ?_, ?_, ?_⟩
  · intro x y hxy
    rw [rank_summary30, rank_summary30]
    split_ifs <;> first | omega | linarith
  · intro x y hxy
    rw [rank_summary100, rank_summary100]
    split_ifs <;> omega
  · intro x
    unfold summary30
    split_ifs <;> simp
  · intro x
    unfold summary100
    split_ifs <;> simp

/-- Witness for C6: raising the score from 12 to 25 on the 0–30 variant and
from 40 to 90 on the 0–100 variant does not lower the label. -/
theorem C6_label_monotone_witness :
    labelRank (summary30 12) ≤ labelRank (summary30 25)
    ∧ labelRank (summary100 40) ≤ labelRank (summary100 90) :=
  ⟨C6_label_monotone.1 12 25 (by norm_num), C6_label_monotone.2.1 40 90 (by norm_num)⟩

/-- Rank of the four advisory strings of `generate_tip`, in the same order
as `labelRank`. -/
def tipRank : String → ℕ
  | "Excellent choice. Focus on durability and mindful care." => 3
  | "Fairly sustainable. Washing less and air-drying helps." => 2
  | "Moderate impact. Consider natural or recycled fibers." => 1
  | _ => 0

/-- C7: `generate_tip` selects its advisory string by the same threshold
bands 24/18/12 as the 0–30 summary, so for every score the advisory band
coincides with the label band. -/
theorem C7_tip_band_agrees :
    ∀ s : ℚ, tipRank (generate_tip s) = labelRank (summary30 s)
      ∧ tipRank (generate_tip s)
          = if 24 ≤ s then 3 else if 18 ≤ s then 2 else if 12 ≤ s then 1 else 0 := by
  intro s
  have htip : tipRank (generate_tip s)
      = if 24 ≤ s then 3 else if 18 ≤ s then 2 else if 12 ≤ s then 1 else 0 := by
    by_cases h1 : 24 ≤ s
    · simp [generate_tip, tipRank, h1]
    · by_cases h2 : 18 ≤ s
      · simp [generate_tip, tipRank, h1, h2]
      · by_cases h3 : 12 ≤ s
        · simp [generate_tip, tipRank, h1, h2, h3]
        · simp [generate_tip, tipRank, h1, h2, h3]
  exact ⟨by rw [htip, rank_summary30], htip⟩

/-- C8: on the 0–30 variant, a single matched entry with base score 23 and
only the environmental-claim signal active yields overallScore 25.0 — below
the clamp `MAX_ECOSCORE = 30` — and the label "Excellent Choice"
(threshold 24). -/
theorem C8_scenario_23_plus_claim :
    score30 [23] true 0 = 25
    ∧ score30 [23] true 0 ≤ MAX_ECOSCORE
    ∧ summary30 (score30 [23] true 0) = "Excellent Choice" := by
  have h : score30 [23] true 0 = 25 := by
    norm_num [score30, rnd1, pyRound, ENV_CLAIM_BONUS, WEB_VERIFICATION_CAP,
      MAX_ECOSCORE, pymin]
  refine ⟨h, ?_, ?_⟩
  · rw [h]; norm_num [MAX_ECOSCORE]
  · rw [h]; decide

/-- C9: substring matching makes the single-material input "organic cotton"
match both the `organic cotton` entry (score 90) and the `cotton` entry
(score 50) of the 0–100 table, so the reported overallScore is their mean 70,
not the named material's score 90. -/
theorem C9_substring_double_match :
    (matched100 material_database "organic cotton").map M100.name
        = ["organic cotton", "cotton"]
    ∧ (analyzeFabric "organic cotton" false).overallScore = 70
    ∧ (analyzeFabric "organic cotton" false).overallScore ≠ 90
    ∧ score100 [90, 50] false = pyRound (((90 : ℚ) + 50) / 2) := by
  have hm : (matched100 material_database "organic cotton").map M100.score = [90, 50] := by
    decide
  have hs : score100 [90, 50] false = 70 := by
    norm_num [score100, pyRound, pymin]
  have hov : (analyzeFabric "organic cotton" false).overallScore = 70 := by
    show score100 ((matched100 material_database "organic cotton").map M100.score) false = 70
    rw [hm, hs]
  refine ⟨by decide, hov, ?_, ?_⟩
  · rw [hov]; decide
  · rw [hs]; norm_num [pyRound]

/-- C10: `analyze_packaging` returns the error dict exactly when no entry of
the materials table has a name equal, case-insensitively, to the requested
material; otherwise it uses the first matching entry in list order and
returns a full report for any city, with the localized outcome falling back
to the "Data Unavailable" default record whenever the city or the material
has no infrastructure entry — never an error. -/
theorem C10_packaging_error_iff_unknown :
    ∀ (mats : List PMaterial) (infra : List (String × List (String × RecyclingInfo)))
      (alts : List (String × List String)) (esg : List (String × List String))
      (regs : List String) (name city : String),
      ((∃ msg, analyze_packaging mats infra alts esg regs name city = .failure msg) ↔
        ∀ m ∈ mats, lowerStr m.name ≠ lowerStr name)
      ∧ (∀ m, find_material_by_name mats name = some m →
          lowerStr m.name = lowerStr name
          ∧ (∃ pre post, mats = pre ++ m :: post
              ∧ ∀ m' ∈ pre, lowerStr m'.name ≠ lowerStr name)
          ∧ ∃ r : PReport, analyze_packaging mats infra alts esg regs name city = .report r
              ∧ r.material = m.name
              ∧ r.city = capStr city
              ∧ r.localized = (dictGet ((dictGet infra (lowerStr city).asString).getD [])
                    m.mat_id).getD defaultRecycling
              ∧ r.regulations = regs)
      ∧ (∀ m, find_material_by_name mats name = some m →
          dictGet ((dictGet infra (lowerStr city).asString).getD []) m.mat_id = none →
          ∃ r : PReport, analyze_packaging mats infra alts esg regs name city = .report r
              ∧ r.localized.outcome = "Data Unavailable") := by
  intro mats infra alts esg regs name city
  refine ⟨?_, ?_, ?_⟩
  · rw [← find_material_eq_none_iff]
    constructor
    · rintro ⟨msg, hmsg⟩
      cases hfind : find_material_by_name mats name with
      | none => rfl
      | some m =>
        unfold analyze_packaging at hmsg
        rw [hfind] at hmsg
        cases hmsg
    · intro hnone
      unfold analyze_packaging
      rw [hnone]
      exact ⟨_, rfl⟩
  · intro m hfind
    obtain ⟨hname, hfirst⟩ := find_material_eq_some mats name m hfind
    refine ⟨hname, hfirst, ?_⟩
    unfold analyze_packaging
    rw [hfind]
    exact ⟨_, rfl, rfl, rfl, rfl, rfl⟩
  · intro m hfind hnone
    unfold analyze_packaging
    rw [hfind]
    refine ⟨_, rfl, ?_⟩
    show ((dictGet ((dictGet infra (lowerStr city).asString).getD [])
        m.mat_id).getD defaultRecycling).outcome = "Data Unavailable"
    rw [hnone]
    rfl

/-- Witness for C10 at concrete inputs: on a one-entry table the query
"pet bottle" (case-insensitive) with empty databases yields a full report
with the "Data Unavailable" default outcome, and on the empty table every
query yields the error dict. -/
theorem C10_packaging_error_iff_unknown_witness :
    (∃ r : PReport,
        analyze_packaging [⟨"PET Bottle", "pet", "plastic"⟩] [] [] [] []
            "pet bottle" "Mumbai" = .report r
          ∧ r.localized.outcome = "Data Unavailable")
    ∧ (∃ msg, analyze_packaging [] [] [] [] [] "pet bottle" "Mumbai" = .failure msg) :=
  ⟨(C10_packaging_error_iff_unknown [⟨"PET Bottle", "pet", "plastic"⟩] [] [] [] []
        "pet bottle" "Mumbai").2.2 ⟨"PET Bottle", "pet", "plastic"⟩ (by decide) rfl,
   (C10_packaging_error_iff_unknown [] [] [] [] [] "pet bottle" "Mumbai").1.mpr
      (by simp)⟩

end Eco
